import Mathlib

/-!
Shallow embedding of the `sim_telemetry` pipeline
(crates `telemetry_facade` and `telemetry`).

Modelling conventions:
* Machine integers are `Nat` / `Int`; `usize` indices are `Nat`, with the
  64-bit bound made explicit where it matters (`MetricId.MAX = 2^64 - 1`).
* `f64` values that merely cross the pipeline (never arithmetically
  transformed) are represented by their IEEE-754 bit pattern, a `Nat < 2^64`;
  `f64::to_ne_bytes` on the little-endian targets this crate runs on is the
  little-endian byte decomposition of that bit pattern.
* The external `fstapi::Writer` is a black box; calls into it are recorded
  as an ordered event log (`BackendEvent`).  Its opaque `var_type` constants
  are an enumeration, and `create_var` hands out consecutive handles.
* Channels: the command channel delivers a finite list of commands in order;
  the list ending models every sender having been dropped (`recv` returning
  `Err`).  Per-registration reply channels are modelled by collecting, in
  order, the identifiers the worker sends back.
-/

namespace SimTelemetry

/-- Kind enumeration `MetricKind` from `telemetry_facade/src/recorder.rs`. -/
inductive MetricKind where
  | Int8 | Int16 | Int32 | Int64
  | Uint8 | Uint16 | Uint32 | Uint64
  | Float32 | Float64
  deriving DecidableEq, Repr

/-- Channel value type `Value` from `telemetry/src/lib.rs`: the three widened representations
crossing the channel.  `Float64` carries the IEEE-754 bit pattern. -/
inductive Value where
  | Int64 (v : Int)
  | Uint64 (v : Nat)
  | Float64 (bits : Nat)
  deriving DecidableEq, Repr

/-- Identifier type `MetricId` is `usize`; on the 64-bit targets of this crate
`MetricId::MAX = 2^64 - 1`. -/
def MetricId.MAX : Nat := 2 ^ 64 - 1

/-! Widening methods of the `Recorder` trait.

`telemetry_facade/src/recorder.rs` lines 9-32 give the default widening
methods, each forwarding to one of the three required methods, which in
`TelemetryRecorderImpl` (`telemetry/src/lib.rs` lines 26-45) wrap the value
into the corresponding `Value` variant.  Each function below is the
composition: the `Value` that crosses the channel for one `record_*` call.

Representation of the narrow machine integers at the parameter:
an `iN` argument is an `Int` in `[-2^(N-1), 2^(N-1))`, a `uN` argument a
`Nat` below `2^N`; Rust `Into` conversions to `i64`/`u64` preserve the
represented value, so they embed as the identity injection.

NOTE: in the source, `record_i8` declares its value parameter as `u8`
(`fn record_i8(&self, id: usize, value: u8)`), unlike `record_i16`/`record_i32`
which take `i16`/`i32`.  The embedding keeps that signature faithfully:
the argument is the byte, a `Nat < 256`, and `u8::into::<i64>` zero-extends. -/

/-- Channel value for `record_i8`: source parameter type is `u8`, so the
byte zero-extends into `Int64` (no sign-extension happens). -/
def record_i8_value (v : Nat) : Value := Value.Int64 (Int.ofNat v)

/-- Channel value for `record_i16` (`i16 -> i64` via `Into`, value-preserving). -/
def record_i16_value (v : Int) : Value := Value.Int64 v

/-- Channel value for `record_i32` (`i32 -> i64` via `Into`, value-preserving). -/
def record_i32_value (v : Int) : Value := Value.Int64 v

/-- Channel value for `record_i64` (required method, wrapped directly). -/
def record_i64_value (v : Int) : Value := Value.Int64 v

/-- Channel value for `record_u8` (`u8 -> u64` zero-extension). -/
def record_u8_value (v : Nat) : Value := Value.Uint64 v

/-- Channel value for `record_u16` (`u16 -> u64` zero-extension). -/
def record_u16_value (v : Nat) : Value := Value.Uint64 v

/-- Channel value for `record_u32` (`u32 -> u64` zero-extension). -/
def record_u32_value (v : Nat) : Value := Value.Uint64 v

/-- Channel value for `record_u64` (required method, wrapped directly). -/
def record_u64_value (v : Nat) : Value := Value.Uint64 v

/-! The facade singleton `RecorderCell`.

`telemetry_facade/src/recorder.rs` lines 35-81.  The installed recorder is
abstracted to a token (`Nat`).  `set` performs
`state.compare_exchange(0, 1)`, writes the recorder, then stores `2`; the
three atomic steps of one successful call are collapsed into a single
sequential step (each `set` call runs to completion in this model). -/

structure RecorderCell where
  recorder : Option Nat
  state : Nat
  deriving DecidableEq, Repr

/-- Constructor `RecorderCell::new()`: state `0`, no recorder. -/
def RecorderCell.new : RecorderCell := { recorder := none, state := 0 }

/-- Installer `RecorderCell::set`: succeeds only from state `0`, publishing the
recorder and moving to state `2`; otherwise returns `false` and changes
nothing (the supplied recorder is discarded). -/
def RecorderCell.set (c : RecorderCell) (r : Nat) : Bool × RecorderCell :=
  if c.state = 0 then
    (true, { recorder := some r, state := 2 })
  else
    (false, c)

/-- Reader `RecorderCell::get`: `None` unless the state is `2`. -/
def RecorderCell.get (c : RecorderCell) : Option Nat :=
  if c.state ≠ 2 then none else c.recorder

/-- A sequence of `set` calls, returning each call's result in order
together with the final cell. -/
def RecorderCell.setAll (c : RecorderCell) : List Nat → List Bool × RecorderCell
  | [] => ([], c)
  | r :: rs =>
    let (ok, c1) := c.set r
    let (oks, c2) := c1.setAll rs
    (ok :: oks, c2)

/-! Registration round trip `TelemetryRecorderImpl::allocate`.

`telemetry/src/lib.rs` lines 15-24: sends `Register` (ignoring any send
error) and then `reply_rx.recv().unwrap_or(MetricId::MAX)`.  The receive
outcome is an `Option`: `none` models `recv` failing because no sender is
alive (the writer is gone). -/

/-- The identifier `allocate` returns given the reply-channel outcome. -/
def allocate_result (reply : Option Nat) : Nat :=
  reply.getD MetricId.MAX

/-! The worker of `telemetry/src/lib.rs`. -/

/-- The `fstapi::var_type` constants used by `Worker::metric_type`,
kept as opaque symbols of the external crate. -/
inductive VarType where
  | SV_BYTE | SV_SHORTINT | SV_INT | SV_LONGINT | VCD_REAL
  deriving DecidableEq, Repr

/-- Mapping `Worker::metric_type` (lines 194-208). -/
def metric_type (kind : MetricKind) : VarType :=
  match kind with
  | MetricKind.Int8 => VarType.SV_BYTE
  | MetricKind.Int16 => VarType.SV_SHORTINT
  | MetricKind.Int32 => VarType.SV_INT
  | MetricKind.Int64 => VarType.SV_LONGINT
  | MetricKind.Uint8 => VarType.SV_BYTE
  | MetricKind.Uint16 => VarType.SV_SHORTINT
  | MetricKind.Uint32 => VarType.SV_INT
  | MetricKind.Uint64 => VarType.SV_LONGINT
  | MetricKind.Float32 => VarType.VCD_REAL
  | MetricKind.Float64 => VarType.VCD_REAL

/-- Mapping `Worker::metric_size` (lines 210-223). -/
def metric_size (kind : MetricKind) : Nat :=
  match kind with
  | MetricKind.Int8 => 1
  | MetricKind.Int16 => 8
  | MetricKind.Int32 => 8
  | MetricKind.Int64 => 8
  | MetricKind.Uint8 => 1
  | MetricKind.Uint16 => 8
  | MetricKind.Uint32 => 8
  | MetricKind.Uint64 => 8
  | MetricKind.Float32 => 8
  | MetricKind.Float64 => 8

/-- Byte encoding `f64::to_ne_bytes` on the bit pattern: native order on this crate's
little-endian targets, so byte `i` is bits `8*i .. 8*i+7`. -/
def f64_to_ne_bytes (bits : Nat) : List Nat :=
  [bits % 256, bits / 2 ^ 8 % 256, bits / 2 ^ 16 % 256, bits / 2 ^ 24 % 256,
   bits / 2 ^ 32 % 256, bits / 2 ^ 40 % 256, bits / 2 ^ 48 % 256,
   bits / 2 ^ 56 % 256]

/-- Encoder `Worker::metric_value` (lines 225-230): the 8-byte buffer and length
emitted for one update.  Only a `Float64` value against a float kind
produces a populated payload; every other combination yields 8 zero bytes. -/
def metric_value (kind : MetricKind) (value : Value) : List Nat × Nat :=
  match kind, value with
  | MetricKind.Float64, Value.Float64 v => (f64_to_ne_bytes v, 8)
  | MetricKind.Float32, Value.Float64 v => (f64_to_ne_bytes v, 8)
  | _, _ => (List.replicate 8 0, 8)

/-- Command type from `telemetry/src/lib.rs` lines 48-62.  The `reply` sender
inside `Register` is modelled by collecting sent identifiers in the worker
state, so it does not appear in the command itself.  `Timestamp` carries the
already-computed `u64` tick. -/
inductive Command where
  | Register (name : String) (kind : MetricKind) (unit : String)
  | Timestamp (ts : Nat)
  | Update (metric : Nat) (value : Value)
  | Exit
  deriving DecidableEq, Repr

/-- Registered metric record from `telemetry/src/lib.rs` lines 233-237: the backend variable
handle and the registered kind. -/
structure Metric where
  var : Nat
  kind : MetricKind
  deriving DecidableEq, Repr

/-- One call into the black-box `fstapi::Writer`. -/
inductive BackendEvent where
  | createVar (ty : VarType) (size : Nat) (name : String)
  | timeChange (ts : Nat)
  | valueChange (var : Nat) (bytes : List Nat)
  | flushed
  deriving DecidableEq, Repr

/-- The worker-owned state: its metric list, the ordered log of backend
calls, the identifiers sent back over reply channels (in registration
order), and the next fresh backend variable handle. -/
structure WorkerState where
  metrics : List Metric
  events : List BackendEvent
  replies : List Nat
  nextHandle : Nat
  deriving DecidableEq, Repr

/-- Initial state: `Worker::new` starts with an empty metric list (lines 143-150). -/
def WorkerState.init : WorkerState :=
  { metrics := [], events := [], replies := [], nextHandle := 0 }

/-- One iteration body of `Worker::run` (lines 155-185) for a non-`Exit`
command:
* `Register`: `id = metrics.len()`, `create_var` on the backend, push the
  metric, send `id` on the reply channel.  The `unit` field is bound to
  `_unit` in the source and discarded.
* `Timestamp ts`: `emit_time_change(ts)`.
* `Update`: `metrics.get(metric)`; out of range means `continue` with
  nothing touched, otherwise `metric_value` encodes the payload and
  `emit_value_change` emits `value[..len]`. -/
def step (st : WorkerState) (c : Command) : WorkerState :=
  match c with
  | Command.Register name kind _unit =>
    let id := st.metrics.length
    let var := st.nextHandle
    { metrics := st.metrics ++ [{ var := var, kind := kind }]
      events := st.events ++ [BackendEvent.createVar (metric_type kind) (metric_size kind) name]
      replies := st.replies ++ [id]
      nextHandle := st.nextHandle + 1 }
  | Command.Timestamp ts =>
    { st with events := st.events ++ [BackendEvent.timeChange ts] }
  | Command.Update metric value =>
    match st.metrics.get? metric with
    | none => st
    | some m =>
      let bl := metric_value m.kind value
      { st with events := st.events ++ [BackendEvent.valueChange m.var (bl.1.take bl.2)] }
  | Command.Exit => st

/-- Backend flush `self.writer.flush()` after the loop (line 189). -/
def flush (st : WorkerState) : WorkerState :=
  { st with events := st.events ++ [BackendEvent.flushed] }

/-- Loop `Worker::run` (lines 152-192) over a finite command stream: process
commands in order, `break` at `Exit`, stop when the channel closes (the
list ends), and flush the backend in either case. -/
def run (st : WorkerState) : List Command → WorkerState
  | [] => flush st
  | Command.Exit :: _ => flush st
  | c :: rest => run (step st c) rest


/-- Recognises `Register` commands. -/
def Command.isRegister : Command → Bool
  | Command.Register _ _ _ => true
  | _ => false

/-! Helper lemmas about the worker loop. -/

/-- When the stream holds no `Exit`, the loop drains every command in order
and then flushes (the channel-closed path of `while let Ok(msg) = recv()`). -/
theorem run_eq_flush_foldl (cmds : List Command) (st : WorkerState)
    (h : Command.Exit ∉ cmds) :
    run st cmds = flush (List.foldl step st cmds) := by
  induction cmds generalizing st with
  | nil => rfl
  | cons c cs ih =>
    have hc : c ≠ Command.Exit := fun hce => h (hce ▸ List.mem_cons_self _ _)
    have hcs : Command.Exit ∉ cs := fun hm => h (List.mem_cons_of_mem _ hm)
    cases c with
    | Exit => exact absurd rfl hc
    | Register n k u => rw [List.foldl_cons]; exact ih _ hcs
    | Timestamp t => rw [List.foldl_cons]; exact ih _ hcs
    | Update m v => rw [List.foldl_cons]; exact ih _ hcs

/-- The loop stops at the first `Exit`: commands before it are applied in
order, the backend is flushed, and everything after it is never seen. -/
theorem run_append_exit (pre post : List Command) (st : WorkerState)
    (h : Command.Exit ∉ pre) :
    run st (pre ++ Command.Exit :: post) = flush (List.foldl step st pre) := by
  induction pre generalizing st with
  | nil => rfl
  | cons c cs ih =>
    have hc : c ≠ Command.Exit := fun hce => h (hce ▸ List.mem_cons_self _ _)
    have hcs : Command.Exit ∉ cs := fun hm => h (List.mem_cons_of_mem _ hm)
    cases c with
    | Exit => exact absurd rfl hc
    | Register n k u => rw [List.cons_append, List.foldl_cons]; exact ih _ hcs
    | Timestamp t => rw [List.cons_append, List.foldl_cons]; exact ih _ hcs
    | Update m v => rw [List.cons_append, List.foldl_cons]; exact ih _ hcs

/-- An out-of-range `Update` leaves the worker state untouched:
`metrics.get` returns `None` and the loop body is just `continue`. -/
theorem step_update_oob (st : WorkerState) (mid : Nat) (v : Value)
    (h : st.metrics.length ≤ mid) :
    step st (Command.Update mid v) = st := by
  have hg : st.metrics[mid]? = none := List.getElem?_eq_none h
  simp [step, hg]

/-- An out-of-range `Update` at the head of the stream is skipped and the
loop goes on with the rest. -/
theorem run_update_oob (st : WorkerState) (mid : Nat) (v : Value)
    (rest : List Command) (h : st.metrics.length ≤ mid) :
    run st (Command.Update mid v :: rest) = run st rest := by
  show run (step st (Command.Update mid v)) rest = run st rest
  rw [step_update_oob st mid v h]

/-- Folding a run of `Register` commands appends exactly the consecutive
identifiers starting at the current metric count. -/
theorem foldl_registers_replies (cmds : List Command) (st : WorkerState)
    (h : ∀ c ∈ cmds, c.isRegister = true) :
    (List.foldl step st cmds).replies =
      st.replies ++ List.range' st.metrics.length cmds.length := by
  induction cmds generalizing st with
  | nil => simp
  | cons c cs ih =>
    obtain ⟨n, k, u, rfl⟩ : ∃ n k u, c = Command.Register n k u := by
      cases c with
      | Register n k u => exact ⟨n, k, u, rfl⟩
      | Timestamp t => simp [Command.isRegister] at h
      | Update m v => simp [Command.isRegister] at h
      | Exit => simp [Command.isRegister] at h
    rw [List.foldl_cons, ih _ (fun d hd => h d (List.mem_cons_of_mem _ hd))]
    simp [step, List.range'_succ]

/-- From a cell already in the installed state, every further `set` call
fails and the cell is unchanged. -/
theorem setAll_installed (rs : List Nat) (c : RecorderCell) (h : c.state = 2) :
    RecorderCell.setAll c rs = (rs.map (fun _ => false), c) := by
  induction rs with
  | nil => rfl
  | cons r rs ih => simp [RecorderCell.setAll, RecorderCell.set, h, ih]

/-! Claim theorems. -/

/-- C1: the claim states that every signed kind narrower than 64 bits
sign-extends into Int64.  In the code, `record_i8` declares its value
parameter as `u8` (unlike `record_i16` / `record_i32`, which take `i16` /
`i32`), so the byte 0xFF — the Int8 value -1 — crosses the channel
zero-extended as `Int64 255` rather than sign-extended as `Int64 (-1)`;
`record_i16` does sign-extend, as a contrast. -/
theorem record_i8_not_sign_extended :
    record_i8_value 255 = Value.Int64 255 ∧
    record_i8_value 255 ≠ Value.Int64 (-1) ∧
    record_i16_value (-1) = Value.Int64 (-1) := by
  refine ⟨rfl, by decide, rfl⟩

/-- C2: for a stream of `Register` commands processed by one worker, the
identifiers sent back over the reply channels are exactly `0, 1, ..., N-1`
in registration order; each identifier equals the metric-list length at
the moment of registration, so identifiers are dense, strictly increasing
and never reused. -/
theorem registration_identifiers_dense (cmds : List Command)
    (h : ∀ c ∈ cmds, c.isRegister = true) :
    (∀ st n k u, (step st (Command.Register n k u)).replies =
        st.replies ++ [st.metrics.length]) ∧
    (run WorkerState.init cmds).replies = List.range cmds.length := by
  refine ⟨fun st n k u => rfl, ?_⟩
  have hne : Command.Exit ∉ cmds := by
    intro hm
    have := h _ hm
    simp [Command.isRegister] at this
  rw [run_eq_flush_foldl cmds _ hne]
  show (List.foldl step WorkerState.init cmds).replies = List.range cmds.length
  rw [foldl_registers_replies cmds _ h]
  simp [WorkerState.init, List.range_eq_range']

/-- Witness for C2 at a concrete two-element registration stream. -/
theorem registration_identifiers_dense_witness :
    (∀ c ∈ [Command.Register "a" MetricKind.Int32 "V",
        Command.Register "b" MetricKind.Float64 "s"], Command.isRegister c = true) ∧
    (run WorkerState.init [Command.Register "a" MetricKind.Int32 "V",
        Command.Register "b" MetricKind.Float64 "s"]).replies = List.range 2 :=
  ⟨by decide, (registration_identifiers_dense _ (by decide)).2⟩

/-- C3: an `Update` whose identifier is at or past the metric count is
ignored silently: the step leaves the metric list, every registered
metric and the backend event log unchanged, and the loop simply continues
with the remaining commands. -/
theorem update_out_of_range_ignored (st : WorkerState) (mid : Nat) (v : Value)
    (rest : List Command) (h : st.metrics.length ≤ mid) :
    step st (Command.Update mid v) = st ∧
    run st (Command.Update mid v :: rest) = run st rest :=
  ⟨step_update_oob st mid v h, run_update_oob st mid v rest h⟩

/-- Witness for C3 at the empty initial state and identifier 3. -/
theorem update_out_of_range_ignored_witness :
    WorkerState.init.metrics.length ≤ 3 ∧
    step WorkerState.init (Command.Update 3 (Value.Int64 5)) = WorkerState.init ∧
    run WorkerState.init (Command.Update 3 (Value.Int64 5) :: [Command.Timestamp 1]) =
      run WorkerState.init [Command.Timestamp 1] := by
  have h : WorkerState.init.metrics.length ≤ 3 := by decide
  exact ⟨h,
    (update_out_of_range_ignored WorkerState.init 3 (Value.Int64 5)
      [Command.Timestamp 1] h).1,
    (update_out_of_range_ignored WorkerState.init 3 (Value.Int64 5)
      [Command.Timestamp 1] h).2⟩

/-- C4: when no sender is alive on the reply channel, `allocate` returns
the sentinel `MetricId::MAX` (`recv().unwrap_or(MetricId::MAX)`) rather
than panicking, and a later `record` with that identifier is a silent
no-op at the worker, since the metric list can never be that long. -/
theorem allocate_sentinel_on_writer_gone (st : WorkerState) (v : Value)
    (rest : List Command) (h : st.metrics.length ≤ MetricId.MAX) :
    allocate_result none = MetricId.MAX ∧
    step st (Command.Update MetricId.MAX v) = st ∧
    run st (Command.Update MetricId.MAX v :: rest) = run st rest :=
  ⟨rfl, step_update_oob st MetricId.MAX v h, run_update_oob st MetricId.MAX v rest h⟩

/-- Witness for C4 at the empty initial state. -/
theorem allocate_sentinel_on_writer_gone_witness :
    WorkerState.init.metrics.length ≤ MetricId.MAX ∧
    allocate_result none = MetricId.MAX ∧
    step WorkerState.init (Command.Update MetricId.MAX (Value.Float64 0)) =
      WorkerState.init := by
  have h : WorkerState.init.metrics.length ≤ MetricId.MAX := Nat.zero_le _
  exact ⟨h,
    (allocate_sentinel_on_writer_gone WorkerState.init (Value.Float64 0) [] h).1,
    (allocate_sentinel_on_writer_gone WorkerState.init (Value.Float64 0) [] h).2.1⟩

/-- C5: from the fresh cell, the first `set` call wins the compare-and-
exchange, stores its recorder and returns success; every later `set` call
returns failure, leaves the first recorder installed as the sole active
one, and discards the supplied recorder.  `get` then yields the first
recorder. -/
theorem recorder_singleton_first_wins (r : Nat) (rs : List Nat) :
    RecorderCell.setAll RecorderCell.new (r :: rs) =
      (true :: rs.map (fun _ => false), { recorder := some r, state := 2 }) ∧
    RecorderCell.get { recorder := some r, state := 2 } = some r := by
  constructor
  · simp [RecorderCell.setAll, RecorderCell.new, RecorderCell.set,
      setAll_installed rs { recorder := some r, state := 2 } rfl]
  · rfl

/-- C6: the loop stops at the first `Exit` after flushing the backend:
every command before the first `Exit` is applied in order, and the result
is independent of whatever is queued behind it. -/
theorem exit_stops_processing (st : WorkerState) (pre post : List Command)
    (h : Command.Exit ∉ pre) :
    run st (pre ++ Command.Exit :: post) = flush (List.foldl step st pre) ∧
    run st (pre ++ Command.Exit :: post) = run st (pre ++ [Command.Exit]) := by
  have h1 := run_append_exit pre post st h
  have h2 := run_append_exit pre [] st h
  exact ⟨h1, by rw [h1, h2]⟩

/-- Witness for C6 with one command before and one after `Exit`. -/
theorem exit_stops_processing_witness :
    Command.Exit ∉ [Command.Timestamp 3] ∧
    run WorkerState.init
        ([Command.Timestamp 3] ++ Command.Exit :: [Command.Timestamp 9]) =
      flush (List.foldl step WorkerState.init [Command.Timestamp 3]) :=
  ⟨by decide,
    (exit_stops_processing WorkerState.init [Command.Timestamp 3]
      [Command.Timestamp 9] (by decide)).1⟩

/-- Classifier for the populated branch of `metric_value`: a float kind
paired with a `Float64` channel value. -/
def isFloatPayload (kind : MetricKind) (value : Value) : Bool :=
  match kind, value with
  | MetricKind.Float64, Value.Float64 _ => true
  | MetricKind.Float32, Value.Float64 _ => true
  | _, _ => false

/-- C7: the emitted payload is the 8-byte native-endian IEEE-754 encoding
of the `Float64` value when the metric kind is `Float32` or `Float64` and
the value is `Float64` — for a `Float64` metric recording 2.0 (bit
pattern 0x4000000000000000) the bytes of that pattern — while every other
kind/value combination yields 8 zero bytes. -/
theorem waveform_update_payload (k : MetricKind) (v : Value) (b : Nat)
    (h : isFloatPayload k v = false) :
    metric_value MetricKind.Float64 (Value.Float64 b) = (f64_to_ne_bytes b, 8) ∧
    metric_value MetricKind.Float32 (Value.Float64 b) = (f64_to_ne_bytes b, 8) ∧
    metric_value MetricKind.Float64 (Value.Float64 0x4000000000000000) =
      ([0, 0, 0, 0, 0, 0, 0, 64], 8) ∧
    metric_value k v = (List.replicate 8 0, 8) := by
  refine ⟨rfl, rfl, by decide, ?_⟩
  cases k <;> cases v <;> simp_all [isFloatPayload, metric_value]

/-- Witness for C7 at an integer kind with a `Uint64` value. -/
theorem waveform_update_payload_witness :
    isFloatPayload MetricKind.Int8 (Value.Uint64 7) = false ∧
    metric_value MetricKind.Int8 (Value.Uint64 7) = (List.replicate 8 0, 8) :=
  ⟨rfl, (waveform_update_payload MetricKind.Int8 (Value.Uint64 7) 0 rfl).2.2.2⟩

/-- C9 counterexample: the loop also terminates without ever processing an
`Exit` command — when the command channel closes (every sender dropped),
`recv` fails, the `while let` loop ends, and the backend is still flushed.
Here a stream holding only one `Timestamp` runs to completion. -/
theorem worker_finishes_without_exit :
    run WorkerState.init [Command.Timestamp 5] =
      { metrics := [], events := [BackendEvent.timeChange 5, BackendEvent.flushed],
        replies := [], nextHandle := 0 } ∧
    Command.Exit ∉ [Command.Timestamp 5] :=
  ⟨rfl, by decide⟩

/-- C9 amended: the loop terminates either by processing the first `Exit`
command — draining every command queued before it, flushing, and never
touching anything after it — or when the channel closes with all senders
dropped, in which case it drains everything and flushes as well. -/
theorem worker_termination_paths (st : WorkerState) (pre post cmds : List Command)
    (hpre : Command.Exit ∉ pre) (hcmds : Command.Exit ∉ cmds) :
    run st (pre ++ Command.Exit :: post) = flush (List.foldl step st pre) ∧
    run st cmds = flush (List.foldl step st cmds) :=
  ⟨run_append_exit pre post st hpre, run_eq_flush_foldl cmds st hcmds⟩

/-- Witness for the amended C9 on concrete streams. -/
theorem worker_termination_paths_witness :
    Command.Exit ∉ [Command.Timestamp 1] ∧
    Command.Exit ∉ ([Command.Timestamp 4] : List Command) ∧
    run WorkerState.init
        ([Command.Timestamp 1] ++ Command.Exit :: [Command.Timestamp 2]) =
      flush (List.foldl step WorkerState.init [Command.Timestamp 1]) ∧
    run WorkerState.init [Command.Timestamp 4] =
      flush (List.foldl step WorkerState.init [Command.Timestamp 4]) := by
  refine ⟨by decide, by decide, ?_, ?_⟩
  · exact (worker_termination_paths WorkerState.init [Command.Timestamp 1]
      [Command.Timestamp 2] [Command.Timestamp 4] (by decide) (by decide)).1
  · exact (worker_termination_paths WorkerState.init [Command.Timestamp 1]
      [Command.Timestamp 2] [Command.Timestamp 4] (by decide) (by decide)).2

/-- C10: the unit string of a `Register` command is bound to `_unit` and
discarded, so two registrations differing only in the unit produce the
identical worker state — same metric list, identifier, created variable —
and identical output for the whole remaining stream. -/
theorem unit_string_no_effect (st : WorkerState) (n : String) (k : MetricKind)
    (u1 u2 : String) (rest : List Command) :
    step st (Command.Register n k u1) = step st (Command.Register n k u2) ∧
    run st (Command.Register n k u1 :: rest) =
      run st (Command.Register n k u2 :: rest) :=
  ⟨rfl, rfl⟩

end SimTelemetry
